import Mathlib

/-!
Shallow embedding of the reference-counted PETSc handle wrapper of
src/include/petsc_smart_ptr.hpp (class `petsc_smart_ptr_base` and the
`petsc_smart_ptr<_p_Mat>` specialization).

Handles are natural numbers, with `0` playing the role of `NULL`.  The
external numerical library (PETSc) is an external collaborator; following
the external-interface contract the spec assigns it, its object table is an
association list from live handles to their reference counts, with
increment / decrement / get-count / free / create / destroy operations.
Each wrapper member function is embedded as a state-passing function that
also emits the list of library calls it issues, and reports whether the
`CHKERRQ` convention fired on a non-zero status (modelled as a process
abort, the convention the spec assigns to fatal statuses inside
constructors and destructors).  The `MPI_Iprobe` outcome is a Boolean
parameter `pending` of each destruction run.
-/

namespace PetscRAII

/-- Numeric value of the macro `PETSC_ERR_MEM` in petscerror.h. -/
def PETSC_ERR_MEM : Nat := 55

/-- Numeric value of the macro `PETSC_ERR_SUP` in petscerror.h. -/
def PETSC_ERR_SUP : Nat := 56

/-- Numeric value of the macro `PETSC_ERR_SIG` in petscerror.h. -/
def PETSC_ERR_SIG : Nat := 59

/-- Numeric value of the macro `PETSC_ERR_POINTER` in petscerror.h. -/
def PETSC_ERR_POINTER : Nat := 68

/-- Numeric value of the macro `PETSC_ERR_WRONGSTATE` in petscerror.h. -/
def PETSC_ERR_WRONGSTATE : Nat := 73

/-- Raw pointers / object handles; `0` is `NULL`. -/
abbrev Ptr := Nat

/-- Status codes, the type the header calls `PetscError`; `0` is success. -/
abbrev PetscError := Nat

/-- The external library's object table: each live object handle paired with
its reference count.  A handle absent from the list is not a live library
object (never created, or already freed). -/
abbrev LibState := List (Ptr × Nat)

/-- Reference count the library holds for handle `h`, `none` if `h` is not a
live object. -/
def lookupRef : LibState → Ptr → Option Nat
  | [], _ => none
  | (k, n) :: rest, h => if k = h then some n else lookupRef rest h

/-- Overwrite the reference count of handle `h` (no effect if `h` is dead). -/
def setRef : LibState → Ptr → Nat → LibState
  | [], _, _ => []
  | (k, m) :: rest, h, n => if k = h then (k, n) :: rest else (k, m) :: setRef rest h n

/-- Remove handle `h` from the object table (deallocation). -/
def removeObj : LibState → Ptr → LibState
  | [], _ => []
  | (k, m) :: rest, h => if k = h then removeObj rest h else (k, m) :: removeObj rest h

/-- External library call `PetscObjectReference`: increment the reference
count of a live handle and report success; report a failure status on a
dead or null handle (the spec's interface item (c)). -/
def PetscObjectReference (st : LibState) (h : Ptr) : PetscError × LibState :=
  match lookupRef st h with
  | some n => (0, setRef st h (n + 1))
  | none => (PETSC_ERR_POINTER, st)

/-- External library call `PetscObjectDereference`: decrement the reference
count of a live handle and report success; report a failure status on a
dead or null handle (the spec's interface item (d)). -/
def PetscObjectDereference (st : LibState) (h : Ptr) : PetscError × LibState :=
  match lookupRef st h with
  | some n => (0, setRef st h (n - 1))
  | none => (PETSC_ERR_POINTER, st)

/-- External library call `PetscObjectGetReference`: read the current
reference count of a handle without modifying anything (the spec's
interface item (e)); `none` when the handle is dead, in which case the
caller-supplied output slot is left unwritten. -/
def PetscObjectGetReference (st : LibState) (h : Ptr) : Option Nat :=
  lookupRef st h

/-- External library macro `PetscFree`: release the allocation behind `h`
and null the caller's pointer variable; the returned new pointer value is
the second component.  Its status is discarded at every call site in the
header, so it is not modelled. -/
def PetscFree (st : LibState) (h : Ptr) : LibState × Ptr :=
  (removeObj st h, 0)

/-- One library / messaging call issued by a wrapper operation, recorded so
that ordering ("before any decrement", "never issued") can be stated. -/
inductive LibCall where
  | iprobe : LibCall
  | reference : Ptr → LibCall
  | dereference : Ptr → LibCall
  | getref : Ptr → LibCall
  | free : Ptr → LibCall
  | matCreateCall : Nat → LibCall
  | matDestroyCall : Ptr → LibCall
deriving DecidableEq

/-- The wrapper's own fields: `m_ptr` (the handle) and `m_ierr` (the status
of the most recent operation), as in `petsc_smart_ptr_base`. -/
structure Wrapper where
  m_ptr : Ptr
  m_ierr : PetscError
deriving DecidableEq

/-- Result of running one wrapper operation: the library state afterwards,
the resulting wrapper fields, the sequence of library calls issued, and
whether the `CHKERRQ` fatal-status convention fired (process abort). -/
structure Outcome where
  lib : LibState
  w : Wrapper
  trace : List LibCall
  aborted : Bool
deriving DecidableEq

/-- Embeds `refcount(PetscInt* cnt)` (petsc_smart_ptr.hpp lines 138-143).
The body is `PetscObjectReference((PetscObject)(m_ptr), cnt)` followed by
`PetscFunctionReturn(0)`: it invokes the reference-count increment routine
(not `PetscObjectGetReference`), discards that call's status, never writes
through `cnt`, and returns 0 unconditionally.  Result components: returned
status, library state afterwards, the caller's slot afterwards. -/
def refcount_out (st : LibState) (w : Wrapper) (cnt : Nat) :
    PetscError × LibState × Nat :=
  ((0 : PetscError), (PetscObjectReference st w.m_ptr).2, cnt)

/-- Embeds `refcount()` (lines 128-136): declares a local `refcnt`, calls
`PetscObjectGetReference(m_ptr, &refcnt)` with the status discarded, and
returns `refcnt`.  The `Option` is `none` when the get call fails and the
local stays unwritten (indeterminate).  The second component is the library
state afterwards, unchanged. -/
def refcount_val (st : LibState) (w : Wrapper) : Option Nat × LibState :=
  (PetscObjectGetReference st w.m_ptr, st)

/-- Embeds the destructor of `petsc_smart_ptr_base` (lines 201-241).  The
whole body is guarded by `if(m_ptr)`.  Inside the guard: `MPI_Iprobe`
(outcome is the parameter `pending`); on a pending message `m_ierr`
becomes `PETSC_ERR_SIG`; `CHKERRQ(m_ierr)` aborts on any non-zero status
before any deallocation; then `m_ierr = PetscObjectDereference(m_ptr)`,
immediately overwritten by `m_ierr = refcount(&flag)` (which returns 0
unconditionally and, through its body, increments the count); the branch
`if(not m_ierr)` therefore always takes the free path: `PetscFree(m_ptr)`
(status discarded, pointer nulled), with `PETSC_ERR_WRONGSTATE` recorded
if the pointer survived; the `else` re-increment branch is dead code but
embedded as written; a final `CHKERRQ(m_ierr)` aborts on a non-zero
terminal status. -/
def dtor_base (pending : Bool) (st : LibState) (w : Wrapper) : Outcome :=
  if w.m_ptr = 0 then
    { lib := st, w := w, trace := [], aborted := false }
  else
    let e1 : PetscError := if pending then PETSC_ERR_SIG else w.m_ierr
    if e1 ≠ 0 then
      { lib := st, w := { m_ptr := w.m_ptr, m_ierr := e1 },
        trace := [LibCall.iprobe], aborted := true }
    else
      let d := PetscObjectDereference st w.m_ptr
      let r := refcount_out d.2 { m_ptr := w.m_ptr, m_ierr := d.1 } 0
      let tr := [LibCall.iprobe, LibCall.dereference w.m_ptr, LibCall.reference w.m_ptr]
      if r.1 = 0 then
        let f := PetscFree r.2.1 w.m_ptr
        let e5 : PetscError := if f.2 ≠ 0 then PETSC_ERR_WRONGSTATE else r.1
        { lib := f.1, w := { m_ptr := f.2, m_ierr := e5 },
          trace := tr ++ [LibCall.free w.m_ptr], aborted := e5 != 0 }
      else
        let i := PetscObjectReference r.2.1 w.m_ptr
        { lib := i.2, w := { m_ptr := w.m_ptr, m_ierr := i.1 },
          trace := tr ++ [LibCall.reference w.m_ptr], aborted := i.1 != 0 }

/-- Embeds `petsc_smart_ptr_base(T& ptr)` (lines 48-58): stores
`std::addressof(ptr)` — here the handle `h` of the existing live object —
then sets `m_ierr = PetscObjectReference(m_ptr)` and runs `CHKERRQ`. -/
def ctor_fromRef (st : LibState) (h : Ptr) : Outcome :=
  let r := PetscObjectReference st h
  { lib := r.2, w := { m_ptr := h, m_ierr := r.1 },
    trace := [LibCall.reference h], aborted := r.1 != 0 }

/-- Embeds `petsc_smart_ptr_base(T* ptr)` (lines 60-68): stores the pointer,
then sets `m_ierr = PetscObjectReference(m_ptr)` and runs `CHKERRQ` — the
same body as the reference-form constructor. -/
def ctor_fromPtr (st : LibState) (h : Ptr) : Outcome :=
  let r := PetscObjectReference st h
  { lib := r.2, w := { m_ptr := h, m_ierr := r.1 },
    trace := [LibCall.reference h], aborted := r.1 != 0 }

/-- Embeds the copy constructor (lines 71-79): the new wrapper starts with
the source's handle and status, then `m_ierr = PetscObjectReference(...)`
overwrites the status with the increment call's status and `CHKERRQ` runs.
The source writes `(PetscObject)(ptr)` with `ptr` the source wrapper
itself; the only library object in play is the source's handle, which is
what the increment is modelled as acting on. -/
def copy_ctor (st : LibState) (src : Wrapper) : Outcome :=
  let r := PetscObjectReference st src.m_ptr
  { lib := r.2, w := { m_ptr := src.m_ptr, m_ierr := r.1 },
    trace := [LibCall.reference src.m_ptr], aborted := r.1 != 0 }

/-- Result of a move construction: library state, the new wrapper `dst`,
the moved-from wrapper `src` as the move leaves it, the library calls
issued by the move itself, and the abort flag. -/
structure MoveOutcome where
  lib : LibState
  dst : Wrapper
  src : Wrapper
  trace : List LibCall
  aborted : Bool
deriving DecidableEq

/-- Embeds the move constructor (lines 82-88): the new wrapper copies the
source's handle and status, and the body then explicitly invokes the
source's destructor (`ptr.~petsc_smart_ptr_base()`), so the full
destruction protocol of `dtor_base` runs on the source as part of the
move. -/
def move_ctor (pending : Bool) (st : LibState) (a : Wrapper) : MoveOutcome :=
  let b : Wrapper := { m_ptr := a.m_ptr, m_ierr := a.m_ierr }
  let r := dtor_base pending st a
  { lib := r.lib, dst := b, src := r.w, trace := r.trace, aborted := r.aborted }

/-- Embeds `operator->` (lines 164-175): on a null handle set
`m_ierr = PETSC_ERR_POINTER`, then return `m_ptr` either way; there is no
`CHKERRQ`, so the operation never aborts.  Components: wrapper afterwards,
returned handle. -/
def op_arrow (w : Wrapper) : Wrapper × Ptr :=
  if w.m_ptr = 0 then ({ m_ptr := w.m_ptr, m_ierr := PETSC_ERR_POINTER }, w.m_ptr)
  else (w, w.m_ptr)

/-- Embeds `operator*` (lines 189-193): the body is only
`PetscFunctionReturn(*m_ptr)` — no null check, no status write.  The
second component is the dereferenced object, `none` exactly when the
dereference is of a null pointer (undefined behavior in the source). -/
def op_star (w : Wrapper) : Wrapper × Option Ptr :=
  (w, if w.m_ptr = 0 then none else some w.m_ptr)

/-- Callee body of `get(T* ptr)` (lines 119-124): the parameter (a local
copy, since `T* ptr` is passed by value) is assigned `m_ptr`, and 0 is
returned.  Components: the callee's parameter after the assignment, the
returned status. -/
def get_body (w : Wrapper) (ptr : Ptr) : Ptr × PetscError :=
  (w.m_ptr, 0)

/-- A call `obj.get(s)` as the caller sees it: the callee receives a copy
of `s`, so the caller's variable keeps its value `s` whatever `get_body`
does to the copy; the caller also receives the returned status. -/
def get_call (w : Wrapper) (s : Ptr) : Ptr × PetscError :=
  (s, (get_body w s).2)

/-- External library call `MatCreate` per the spec's interface item (a):
on success it allocates a fresh object (reference count 1) whose handle
`newh` the library picks, writes it through the caller's pointer, and
reports 0; on failure it reports the status `e` and leaves the caller's
pointer at its previous value `prev`.  Both the fresh handle and the
reported status are parameters of the run, the library being an external
collaborator.  Components: reported status, library state, the caller's
pointer afterwards. -/
def MatCreate (st : LibState) (prev : Ptr) (newh : Ptr) (e : PetscError) :
    PetscError × LibState × Ptr :=
  if e = 0 then (0, (newh, 1) :: st, newh) else (e, st, prev)

/-- External library call `MatDestroy` per the spec's interface item (b):
releases the matrix resource and nulls the caller's pointer.  Its status is
discarded at the call site in the header (line 333), so it is not
modelled.  Components: library state, the caller's pointer afterwards. -/
def MatDestroy (st : LibState) (h : Ptr) : LibState × Ptr :=
  (removeObj st h, 0)

/-- Embeds `petsc_smart_ptr<_p_Mat>::petsc_smart_ptr(Mat, MPI_Comm)`
(lines 304-310): the base pointer-adopting constructor runs on `ptr`,
then `MatCreate(comm, &m_ptr)` is invoked as a bare call — its reported
status `createErr` is discarded — and `CHKERRQ(m_ierr)` checks the status
the base constructor left, not the create status. -/
def mat_ctor (st : LibState) (ptr : Ptr) (comm : Nat) (newh : Ptr)
    (createErr : PetscError) : Outcome :=
  let base := ctor_fromPtr st ptr
  if base.aborted then base
  else
    let c := MatCreate base.lib base.w.m_ptr newh createErr
    { lib := c.2.1, w := { m_ptr := c.2.2, m_ierr := base.w.m_ierr },
      trace := base.trace ++ [LibCall.matCreateCall comm],
      aborted := base.w.m_ierr != 0 }

/-- Embeds the destruction of a `petsc_smart_ptr<_p_Mat>` (lines 330-335
followed, by the C++ destruction order, by the base destructor on the same
members): the derived body calls `MatDestroy(&m_ptr)` — which nulls
`m_ptr` — and then `dtor_base` runs on the now-nulled handle. -/
def mat_dtor (pending : Bool) (st : LibState) (w : Wrapper) : Outcome :=
  let m := MatDestroy st w.m_ptr
  let r := dtor_base pending m.1 { m_ptr := m.2, m_ierr := w.m_ierr }
  { lib := r.lib, w := r.w, trace := LibCall.matDestroyCall w.m_ptr :: r.trace,
    aborted := r.aborted }

/-- Setting a handle's count and reading it back at the same key yields the
new count, provided the key was live. -/
theorem lookupRef_setRef (st : LibState) (h : Ptr) (n m : Nat)
    (hl : lookupRef st h = some m) : lookupRef (setRef st h n) h = some n := by
  induction st with
  | nil => simp [lookupRef] at hl
  | cons kv rest ih =>
    obtain ⟨k, v⟩ := kv
    by_cases hk : k = h
    · simp [lookupRef, setRef, hk]
    · simp only [lookupRef, setRef, if_neg hk] at hl ⊢
      exact ih hl

/-- C1: the claim says the destructor re-reads the reference count after
the decrement and frees if and only if the re-read count is zero,
re-incrementing otherwise.  In the code, `m_ierr = refcount(&flag)` stores
the helper's unconditional return value 0 (the helper also increments
rather than reads), so `if(not m_ierr)` always takes the free path: with
two holders (count 2) the destructor still issues `PetscFree`, the
library count at the moment of the free call is 2 (not 0), and the
re-increment branch never runs.  This contradicts the code's own comments
at lines 221-223 ("check that the object isn't being referenced by anyone
else", "if the refcount is zero"). -/
theorem C1_frees_despite_nonzero_count :
    dtor_base false [(1, 2)] { m_ptr := 1, m_ierr := 0 } =
      { lib := [], w := { m_ptr := 0, m_ierr := 0 },
        trace := [LibCall.iprobe, LibCall.dereference 1, LibCall.reference 1,
                  LibCall.free 1],
        aborted := false } ∧
    lookupRef (refcount_out (PetscObjectDereference [(1, 2)] 1).2
      { m_ptr := 1, m_ierr := 0 } 0).2.1 1 = some 2 := by
  constructor
  · decide
  · decide

/-- C2: the claim says copy-construct-then-destroy sequences leave the
library's reference count unchanged.  In the code, starting from one
object with count 1, a copy correctly raises the count to 2, but
destroying that single copy unconditionally frees the shared object
(`lookupRef` comes back `none`, not `some 1`): the balance property fails
because of the unconditional-free slip established for C1. -/
theorem C2_refcount_not_restored :
    lookupRef ([(1, 1)] : LibState) 1 = some 1 ∧
    (copy_ctor [(1, 1)] { m_ptr := 1, m_ierr := 0 }).lib = [(1, 2)] ∧
    (copy_ctor [(1, 1)] { m_ptr := 1, m_ierr := 0 }).aborted = false ∧
    lookupRef (dtor_base false (copy_ctor [(1, 1)] { m_ptr := 1, m_ierr := 0 }).lib
      (copy_ctor [(1, 1)] { m_ptr := 1, m_ierr := 0 }).w).lib 1 = none := by
  refine ⟨by decide, by decide, by decide, by decide⟩

/-- C3: the claim says a move leaves the source empty with status OK and
performs no reference-count change.  In the code the move constructor
explicitly invokes the source's destructor: the source is indeed left with
a null handle and status 0 (so its later scope-exit destruction is a
no-op), but the move itself issues a dereference, a reference and a free
call and deallocates the resource, leaving the destination wrapper holding
a dangling handle (`lookupRef` on the resulting library state is `none`). -/
theorem C3_move_runs_teardown :
    move_ctor false [(1, 1)] { m_ptr := 1, m_ierr := 0 } =
      { lib := [], dst := { m_ptr := 1, m_ierr := 0 },
        src := { m_ptr := 0, m_ierr := 0 },
        trace := [LibCall.iprobe, LibCall.dereference 1, LibCall.reference 1,
                  LibCall.free 1],
        aborted := false } ∧
    lookupRef (move_ctor false [(1, 1)] { m_ptr := 1, m_ierr := 0 }).lib 1 = none := by
  refine ⟨by decide, by decide⟩

/-- C4: if the messaging probe reports a pending inbound message while the
handle is non-null, the destructor sets `PETSC_ERR_SIG`, the abort path
fires, and the only call issued so far is the probe itself — no
reference-count decrement and no deallocation call is ever issued in that
run. -/
theorem C4_pending_blocks_teardown (pending : Bool) (st : LibState) (w : Wrapper)
    (hp : w.m_ptr ≠ 0) (hpend : pending = true) :
    (dtor_base pending st w).aborted = true ∧
    (dtor_base pending st w).w.m_ierr = PETSC_ERR_SIG ∧
    (dtor_base pending st w).trace = [LibCall.iprobe] := by
  subst hpend
  simp [dtor_base, hp, PETSC_ERR_SIG]

/-- C4 witness: the destruction of a live wrapper with a pending message,
evaluated concretely. -/
theorem C4_pending_blocks_witness :
    (Wrapper.mk 1 0).m_ptr ≠ 0 ∧ true = true ∧
    ((dtor_base true [(1, 1)] (Wrapper.mk 1 0)).aborted = true ∧
     (dtor_base true [(1, 1)] (Wrapper.mk 1 0)).w.m_ierr = PETSC_ERR_SIG ∧
     (dtor_base true [(1, 1)] (Wrapper.mk 1 0)).trace = [LibCall.iprobe]) :=
  ⟨by decide, rfl, C4_pending_blocks_teardown true [(1, 1)] (Wrapper.mk 1 0) (by decide) rfl⟩

/-- C5 counterexample: the claim says the reference-form constructor
performs no reference-count adjustment.  Constructing from a live object
with count 1 leaves the library table at count 2: the reference-form
constructor does increment (line 53 calls `PetscObjectReference`). -/
theorem C5_counterexample :
    (ctor_fromRef [(1, 1)] 1).lib ≠ [(1, 1)] ∧
    lookupRef (ctor_fromRef [(1, 1)] 1).lib 1 = some 2 := by
  refine ⟨by decide, by decide⟩

/-- C5 (amended): in the current header the reference-form and the
pointer-form constructors are symmetric — both increment the shared
handle's reference count by exactly one and leave the wrapper holding that
handle with status 0.  (The no-adjustment reference-form behavior exists
only in the earlier drafts under src/unnamed.) -/
theorem C5_both_ctors_increment (st : LibState) (h : Ptr) (n : Nat)
    (hl : lookupRef st h = some n) :
    lookupRef (ctor_fromRef st h).lib h = some (n + 1) ∧
    lookupRef (ctor_fromPtr st h).lib h = some (n + 1) ∧
    (ctor_fromRef st h).w = { m_ptr := h, m_ierr := 0 } ∧
    (ctor_fromPtr st h).w = { m_ptr := h, m_ierr := 0 } := by
  refine ⟨?_, ?_, ?_, ?_⟩ <;>
    simp [ctor_fromRef, ctor_fromPtr, PetscObjectReference, hl,
      lookupRef_setRef st h (n + 1) n hl]

/-- C5 witness: both constructor forms evaluated on a live handle of
count 1. -/
theorem C5_both_ctors_increment_witness :
    lookupRef ([(1, 1)] : LibState) 1 = some 1 ∧
    (lookupRef (ctor_fromRef [(1, 1)] 1).lib 1 = some 2 ∧
     lookupRef (ctor_fromPtr [(1, 1)] 1).lib 1 = some 2 ∧
     (ctor_fromRef [(1, 1)] 1).w = { m_ptr := 1, m_ierr := 0 } ∧
     (ctor_fromPtr [(1, 1)] 1).w = { m_ptr := 1, m_ierr := 0 }) :=
  ⟨by decide, C5_both_ctors_increment [(1, 1)] 1 1 (by decide)⟩

/-- C6: the claim says the matrix constructor's status equals the status
the create call reports, with an unrecoverable create status aborting.
In the code `MatCreate(comm, &m_ptr)` is a bare call whose status is
discarded; with the create call reporting status 77 on a live adopted
handle, the wrapper's status stays 0 (the base constructor's status) and
no abort occurs — contradicting the `CHKERRQ(m_ierr)` on the very next
line, which was evidently meant to check the create status. -/
theorem C6_create_status_discarded :
    mat_ctor [(1, 1)] 1 0 2 77 =
      { lib := [(1, 2)], w := { m_ptr := 1, m_ierr := 0 },
        trace := [LibCall.reference 1, LibCall.matCreateCall 0],
        aborted := false } := by
  decide

/-- C7 counterexample: the claim says destruction of the matrix
specialization performs the base wrapper's four-step protocol (probe,
fatal check, reference decrement, conditional free) after the
matrix-specific destroy call.  Destroying a live matrix wrapper issues
only `MatDestroy`: the probe, the decrement and the free never appear in
the trace, because `MatDestroy` nulls the handle and the base destructor's
`if(m_ptr)` guard then skips its whole body. -/
theorem C7_counterexample :
    (mat_dtor false [(1, 1)] { m_ptr := 1, m_ierr := 0 }).trace =
      [LibCall.matDestroyCall 1] ∧
    LibCall.iprobe ∉ (mat_dtor false [(1, 1)] { m_ptr := 1, m_ierr := 0 }).trace ∧
    LibCall.dereference 1 ∉ (mat_dtor false [(1, 1)] { m_ptr := 1, m_ierr := 0 }).trace ∧
    LibCall.free 1 ∉ (mat_dtor false [(1, 1)] { m_ptr := 1, m_ierr := 0 }).trace := by
  refine ⟨by decide, by decide, by decide, by decide⟩

/-- C7 (amended): destroying a matrix-specialization wrapper first issues
the matrix-specific destroy call, which nulls the handle; the base
destructor then runs on the nulled handle and performs none of its four
steps (its trace contribution is empty and it cannot abort); after
destruction the wrapper's handle is null. -/
theorem C7_matDestroy_then_inert_base (pending : Bool) (st : LibState) (w : Wrapper) :
    (mat_dtor pending st w).trace = [LibCall.matDestroyCall w.m_ptr] ∧
    (mat_dtor pending st w).w.m_ptr = 0 ∧
    (mat_dtor pending st w).aborted = false := by
  simp [mat_dtor, MatDestroy, dtor_base]

/-- C8 counterexample: the claim says pointer-like access — dereference
included — on a null handle records `NullAccess` and returns the null
handle without interrupting control flow.  Dereferencing (`operator*`) a
wrapper with a null handle leaves the status at 0, never recording
`PETSC_ERR_POINTER`, and the access itself is a null-pointer dereference
(no value is produced). -/
theorem C8_counterexample :
    (op_star { m_ptr := 0, m_ierr := 0 }).1.m_ierr ≠ PETSC_ERR_POINTER ∧
    (op_star { m_ptr := 0, m_ierr := 0 }).2 = none := by
  refine ⟨by decide, by decide⟩

/-- C8 (amended): member access (`operator->`) on a null handle records
`PETSC_ERR_POINTER` and still returns the null handle, without aborting
(the operation has no abort channel); dereference (`operator*`) performs
no null check at all: it leaves the wrapper — status included — unchanged
and dereferences the handle directly, which on a null handle is a
null-pointer dereference rather than a recorded `NullAccess`. -/
theorem C8_null_member_access (w : Wrapper) (h0 : w.m_ptr = 0) :
    (op_arrow w).1.m_ierr = PETSC_ERR_POINTER ∧
    (op_arrow w).2 = 0 ∧
    (op_star w).1 = w ∧
    (op_star w).2 = none := by
  simp [op_arrow, op_star, h0]

/-- C8 witness: both access operators evaluated on a wrapper whose handle
is null. -/
theorem C8_null_member_access_witness :
    (Wrapper.mk 0 0).m_ptr = 0 ∧
    ((op_arrow (Wrapper.mk 0 0)).1.m_ierr = PETSC_ERR_POINTER ∧
     (op_arrow (Wrapper.mk 0 0)).2 = 0 ∧
     (op_star (Wrapper.mk 0 0)).1 = Wrapper.mk 0 0 ∧
     (op_star (Wrapper.mk 0 0)).2 = none) :=
  ⟨rfl, C8_null_member_access (Wrapper.mk 0 0) rfl⟩

/-- C9: the claim says both reference-count query overloads return the
library's current count and are read-only.  The value-returning overload
is: on a live handle of count 1 it reads `some 1` and leaves the table
unchanged.  The slot-writing overload `refcount(PetscInt*)` is not: its
body calls `PetscObjectReference` — the increment routine — so the count
becomes 2, the caller's slot (here 5) is never written, and the returned
value is the constant 0, not the count.  This contradicts the header's own
comment "gets the reference count of the object" and the destructor's
reliance on it at line 222. -/
theorem C9_second_overload_mutates :
    refcount_val [(1, 1)] { m_ptr := 1, m_ierr := 0 } = (some 1, [(1, 1)]) ∧
    refcount_out [(1, 1)] { m_ptr := 1, m_ierr := 0 } 5 = (0, [(1, 2)], 5) := by
  refine ⟨by decide, by decide⟩

/-- C10: `get(T* ptr)` assigns the wrapper's handle to its by-value
parameter and returns status 0; because the parameter is a copy, the
caller's pointer variable is unchanged by the call and the returned status
is unconditionally success. -/
theorem C10_get_out_caller_unchanged (w : Wrapper) (s : Ptr) :
    get_call w s = (s, 0) ∧ (get_body w s).1 = w.m_ptr :=
  ⟨rfl, rfl⟩

end PetscRAII
